import Mathlib

/-!
Shallow embedding of the reservation-validation middleware chain of
`back-end/src/reservations/reservations.controller.js` together with the
pipeline wiring of its `module.exports`.  Request payloads (`req.body.data`)
and stored reservation records are modelled as association lists of JS
values; the JavaScript `Date` runtime (`Date.parse`, `Date.now`,
`Date.prototype.getDay`) is an abstract environment; the data-access
collaborator (`reservations.service.js`, an opaque awaited store per the
spec) is an abstract read function, and each handler returns the record it
passes to the store.
-/

/-- A JavaScript value as it occurs in the payloads the controller inspects:
a string or a number. -/
inductive JSValue where
  | vStr (s : String)
  | vNum (n : Int)
deriving DecidableEq, Repr

/-- A JavaScript object, as an association list of fields (key, value). -/
abbrev JSObject := List (String × JSValue)

/-- Field access `o[k]`: the first binding of key `k`; `none` models
`undefined`. -/
def getField (o : JSObject) (k : String) : Option JSValue :=
  (o.find? (fun p => p.1 == k)).map (fun p => p.2)

/-- JavaScript truthiness of a possibly-absent value: `undefined`, `""` and
`0` are falsy. -/
def truthy : Option JSValue → Bool
  | none => false
  | some (.vStr s) => !(s == "")
  | some (.vNum n) => !(n == 0)

/-- String coercion of a possibly-absent value, as performed by template
literals and by `Date.parse`: `undefined` prints as "undefined". -/
def jsToString : Option JSValue → String
  | none => "undefined"
  | some (.vStr s) => s
  | some (.vNum n) => toString n

/-- Object spread `\x7b...a, ...b\x7d`: the later spread `b` wins.  `getField`
takes the first binding, so prepending `b` gives the override semantics; the
handlers observe the result only through `getField`. -/
def spread (a b : JSObject) : JSObject := b ++ a

/-- Outcome of running a middleware chain: the handler responded with `a`,
or some middleware short-circuited with `next(\x7bstatus, message\x7d)`, or a
middleware threw an unhandled TypeError. -/
inductive Outcome (α : Type) where
  | ok (a : α)
  | fail (status : Nat) (message : String)
  | thrown
deriving DecidableEq, Repr

/-- Sequencing of middlewares: run the rest of the chain only when the
guard called a bare `next()`. -/
def Outcome.seq {α : Type} : Outcome Unit → Outcome α → Outcome α
  | .ok _, k => k
  | .fail s m, _ => .fail s m
  | .thrown, _ => .thrown

/-- Sequencing a record-producing step (such as `reservationExists`, which
stores its result in `res.locals`) with the rest of the chain. -/
def Outcome.bind {α β : Type} : Outcome α → (α → Outcome β) → Outcome β
  | .ok a, k => k a
  | .fail s m, _ => .fail s m
  | .thrown, _ => .thrown

/-- Whether the chain accepted the request (the handler ran and responded
with a success status). -/
def Outcome.isOk {α : Type} : Outcome α → Bool
  | .ok _ => true
  | _ => false

/-- The JavaScript `Date` runtime the controller calls into: `Date.parse`
(`none` models `NaN`), `(new Date ts).getDay()` (0 = Sunday .. 6 = Saturday)
and `Date.now()`. -/
structure DateEnv where
  parse : String → Option Int
  getDay : Int → Nat
  now : Int

/-- The allow-list `VALID_PROPERTIES` of the controller. -/
def VALID_PROPERTIES : List String :=
  ["reservation_id", "first_name", "last_name", "mobile_number",
   "reservation_date", "reservation_time", "people", "status",
   "created_at", "updated_at"]

/-- The six required creation fields, the arguments of
`hasProperties(...)`. -/
def REQUIRED_PROPERTIES : List String :=
  ["first_name", "last_name", "mobile_number", "reservation_date",
   "reservation_time", "people"]

/-- Middleware `hasOnlyValidProperties`: reject, naming every key of
`req.body.data` outside `VALID_PROPERTIES`, joined with ", ". -/
def hasOnlyValidProperties (data : JSObject) : Outcome Unit :=
  let invalidFields := (data.map (fun p => p.1)).filter
    (fun field => !(VALID_PROPERTIES.contains field))
  if !invalidFields.isEmpty then
    .fail 400 ("Invalid field(s): " ++ String.intercalate ", " invalidFields)
  else .ok ()

/-- Modelled from the spec: the `hasProperties` utility
(`back-end/src/utils/hasProperties`) applied to the six required fields is
not among the sources; per the spec it rejects a payload in which any of the
six required fields is absent or empty, with a message listing exactly the
missing fields. -/
def hasRequiredProperties (data : JSObject) : Outcome Unit :=
  let missing := REQUIRED_PROPERTIES.filter (fun k => !(truthy (getField data k)))
  if !missing.isEmpty then
    .fail 400 ("Missing field(s): " ++ String.intercalate ", " missing)
  else .ok ()

/-- Character-class test of the regex: `lo.toNat` to `hi.toNat` is the code
range, e.g. `inRange '0' '9'` is `[0-9]`. -/
def inRange (lo hi : Char) (c : Char) : Bool :=
  lo.toNat ≤ c.toNat && c.toNat ≤ hi.toNat

/-- `reservationTimeIsValid`: the time matches
`^(0[0-9]|1[0-9]|2[0-3]):[0-5][0-9]$`. -/
def reservationTimeIsValid (t : String) : Bool :=
  match t.data with
  | [h1, h2, c, m1, m2] =>
      (((h1 == '0' || h1 == '1') && inRange '0' '9' h2)
        || (h1 == '2' && inRange '0' '3' h2))
      && c == ':' && inRange '0' '5' m1 && inRange '0' '9' m2
  | _ => false

/-- String.replace(":", "") of JavaScript: only the first occurrence of ":"
is removed. -/
def removeFirstColon : List Char → List Char
  | [] => []
  | c :: cs => if c == ':' then cs else c :: removeFirstColon cs

/-- `Number(s)` on the strings that reach it here: the empty string is 0, a
digit string is its value, anything else is `NaN` (`none`); the sign,
decimal and exponent forms of `Number` never occur on these inputs. -/
def jsNumberOfDigits (cs : List Char) : Option Nat :=
  if cs.all (inRange '0' '9') then
    some (cs.foldl (fun acc c => 10 * acc + (c.toNat - 48)) 0)
  else none

/-- `reservationTimeNotAllowed`:
`Number(reservation_time.replace(":", "").slice(0, 4)) < 1030 || ... > 2130`;
both comparisons are false on `NaN`. -/
def reservationTimeNotAllowed (t : String) : Bool :=
  match jsNumberOfDigits ((removeFirstColon t.data).take 4) with
  | some v => decide (v < 1030) || decide (v > 2130)
  | none => false

/-- `reservationDateIsValid`: `Date.parse(reservation_date)` is not `NaN`
(the function then returns `date instanceof Date`, i.e. true; on `NaN` it
returns `undefined`, which is falsy). -/
def reservationDateIsValid (env : DateEnv) (reservation_date : Option JSValue) : Bool :=
  (env.parse (jsToString reservation_date)).isSome

/-- `reservationDateIsTuesday`: parse "date PST" and test `getDay() == 2`;
`new Date(NaN).getDay()` is `NaN`, and `NaN == 2` is false. -/
def reservationDateIsTuesday (env : DateEnv) (reservation_date : Option JSValue) : Bool :=
  match env.parse (jsToString reservation_date ++ " PST") with
  | some ts => env.getDay ts == 2
  | none => false

/-- `reservationNotInTheFuture`: parse "date time PST" and test
`timestamp < Date.now()`; the comparison is false on `NaN`. -/
def reservationNotInTheFuture (env : DateEnv)
    (reservation_date reservation_time : Option JSValue) : Bool :=
  match env.parse (jsToString reservation_date ++ " " ++ jsToString reservation_time ++ " PST") with
  | some ts => decide (ts < env.now)
  | none => false

/-- `typeof people === "number"`. -/
def isNumberValue : Option JSValue → Bool
  | some (.vNum _) => true
  | _ => false

/-- Middleware `hasValidInputs`: build one combined "Invalid input(s):"
message from the three shape checks; if none was appended, run the three
business rules in order.  `reservation_time.match` throws a TypeError when
the field is not a string. -/
def hasValidInputs (env : DateEnv) (data : JSObject) : Outcome Unit :=
  let people := getField data "people"
  let reservation_date := getField data "reservation_date"
  let reservation_time := getField data "reservation_time"
  match reservation_time with
  | some (.vStr t) =>
    let s0 := "Invalid input(s):"
    let s1 := if !(isNumberValue people) then s0 ++ " people" else s0
    let s2 := if !(reservationDateIsValid env reservation_date) then
        s1 ++ " reservation_date" else s1
    let s3 := if !(reservationTimeIsValid t) then s2 ++ " reservation_time" else s2
    if s3 != "Invalid input(s):" then .fail 400 s3
    else if reservationDateIsTuesday env reservation_date then
      .fail 400 "The restaurant is closed on Tuesdays."
    else if reservationNotInTheFuture env reservation_date reservation_time then
      .fail 400 "Please enter future reservation date."
    else if reservationTimeNotAllowed t then
      .fail 400 "Please enter a time between 10:30 to 21:30."
    else .ok ()
  | _ => .thrown

/-- Middleware `statusIsBooked`: a falsy `status` passes, `"booked"` passes,
anything else is rejected naming the value. -/
def statusIsBooked (data : JSObject) : Outcome Unit :=
  let status := getField data "status"
  if !(truthy status) then .ok ()
  else if status == some (.vStr "booked") then .ok ()
  else .fail 400 ("The reservation status is " ++ jsToString status ++ ".")

/-- Middleware `statusIsNotFinished`, reading the resolved record from
`res.locals.reservation`. -/
def statusIsNotFinished (reservation : JSObject) : Outcome Unit :=
  let status := getField reservation "status"
  if status != some (.vStr "finished") then .ok ()
  else .fail 400 ("A " ++ jsToString status ++ " reservation cannot be updated.")

/-- Middleware `hasValidStatusRequest`: the requested `status` must be one
of booked, seated, finished, cancelled. -/
def hasValidStatusRequest (data : JSObject) : Outcome Unit :=
  let status := getField data "status"
  if status == some (.vStr "booked") || status == some (.vStr "seated")
      || status == some (.vStr "finished") || status == some (.vStr "cancelled") then
    .ok ()
  else .fail 400 ("The reservation status " ++ jsToString status ++ " is invalid.")

/-- The data-access collaborator: `reservationsService.read` keyed by the
`reservation_id` route parameter (a string). -/
structure Service where
  read : String → Option JSObject

/-- Middleware `reservationExists`: resolve the id against the store; a hit
is saved in `res.locals.reservation`, a miss is a 404 naming the id. -/
def reservationExists (service : Service) (reservation_id : String) : Outcome JSObject :=
  match service.read reservation_id with
  | some reservation => .ok reservation
  | none => .fail 404 ("Reservation ID " ++ reservation_id ++ " does not exist.")

/-- The `create` export: `hasOnlyValidProperties`, `hasRequiredProperties`,
`hasValidInputs`, `statusIsBooked`, then the handler, which passes
`\x7b...data, status: "booked"\x7d` to the store. -/
def createPipeline (env : DateEnv) (data : JSObject) : Outcome JSObject :=
  Outcome.seq (hasOnlyValidProperties data)
    (Outcome.seq (hasRequiredProperties data)
      (Outcome.seq (hasValidInputs env data)
        (Outcome.seq (statusIsBooked data)
          (.ok (spread data [("status", .vStr "booked")])))))

/-- The `read` export: `reservationExists` then the handler, which responds
with the resolved record. -/
def readPipeline (service : Service) (reservation_id : String) : Outcome JSObject :=
  Outcome.bind (reservationExists service reservation_id) (fun reservation => .ok reservation)

/-- The `update` export: `reservationExists`, `hasOnlyValidProperties`,
`hasRequiredProperties`, `hasValidInputs`, then the `update` handler, which
passes `\x7b...res.locals.reservation, ...req.body.data\x7d` to the store.
No `statusIsNotFinished` guard appears in this chain. -/
def updatePipeline (env : DateEnv) (service : Service)
    (reservation_id : String) (data : JSObject) : Outcome JSObject :=
  Outcome.bind (reservationExists service reservation_id) (fun reservation =>
    Outcome.seq (hasOnlyValidProperties data)
      (Outcome.seq (hasRequiredProperties data)
        (Outcome.seq (hasValidInputs env data)
          (.ok (spread reservation data)))))

/-- The `delete` export: `reservationExists` then `destroy`, which passes
the resolved record's `reservation_id` to the store's delete. -/
def deletePipeline (service : Service) (reservation_id : String) : Outcome (Option JSValue) :=
  Outcome.bind (reservationExists service reservation_id) (fun reservation =>
    .ok (getField reservation "reservation_id"))

/-- The `updateStatus` export: `reservationExists`, `statusIsNotFinished`,
`hasValidStatusRequest`, then the same `update` handler as the full-record
route. -/
def updateStatusPipeline (service : Service)
    (reservation_id : String) (data : JSObject) : Outcome JSObject :=
  Outcome.bind (reservationExists service reservation_id) (fun reservation =>
    Outcome.seq (statusIsNotFinished reservation)
      (Outcome.seq (hasValidStatusRequest data)
        (.ok (spread reservation data))))

/-- Both time checks that `hasValidInputs` applies to `reservation_time`:
the shape check passes and the service-window check does not fire. -/
def reservationTimeAccepted (t : String) : Bool :=
  reservationTimeIsValid t && !(reservationTimeNotAllowed t)

/-- Follows the spec's words, for comparison with the code's two time
checks: the value is HH:MM with HH in 00..23 and MM in 00..59, and lies in
the inclusive service window 10:30..21:30. -/
def specTimeAccepted (t : String) : Bool :=
  match t.data with
  | [h1, h2, c, m1, m2] =>
      c == ':' && inRange '0' '9' h1 && inRange '0' '9' h2
      && inRange '0' '9' m1 && inRange '0' '9' m2
      && decide (10 * (h1.toNat - 48) + (h2.toNat - 48) ≤ 23)
      && decide (10 * (m1.toNat - 48) + (m2.toNat - 48) ≤ 59)
      && decide (1030 ≤ 100 * (10 * (h1.toNat - 48) + (h2.toNat - 48))
            + (10 * (m1.toNat - 48) + (m2.toNat - 48)))
      && decide (100 * (10 * (h1.toNat - 48) + (h2.toNat - 48))
            + (10 * (m1.toNat - 48) + (m2.toNat - 48)) ≤ 2130)
  | _ => false

/-- A concrete `Date` runtime for evaluation: the sample date parses, falls
on a Wednesday, and lies in the future of `now`. -/
def sampleEnv : DateEnv where
  parse := fun s =>
    if s == "2030-01-09" then some 1000
    else if s == "2030-01-09 PST" then some 1000
    else if s == "2030-01-09 12:00 PST" then some 2000
    else none
  getDay := fun _ => 3
  now := 0

/-- A well-formed creation/update payload. -/
def sampleData : JSObject :=
  [("first_name", .vStr "Ann"), ("last_name", .vStr "Lee"),
   ("mobile_number", .vStr "555-1234"), ("reservation_date", .vStr "2030-01-09"),
   ("reservation_time", .vStr "12:00"), ("people", .vNum 2)]

/-- A stored reservation whose current status is "finished". -/
def finishedReservation : JSObject :=
  [("reservation_id", .vNum 7), ("first_name", .vStr "Bob"),
   ("last_name", .vStr "Ray"), ("mobile_number", .vStr "555-9876"),
   ("reservation_date", .vStr "2030-01-09"), ("reservation_time", .vStr "11:00"),
   ("people", .vNum 4), ("status", .vStr "finished")]

/-- A stored reservation whose current status is "booked". -/
def bookedReservation : JSObject :=
  [("reservation_id", .vNum 8), ("first_name", .vStr "Cal"),
   ("last_name", .vStr "Dee"), ("mobile_number", .vStr "555-0000"),
   ("reservation_date", .vStr "2030-01-09"), ("reservation_time", .vStr "13:00"),
   ("people", .vNum 3), ("status", .vStr "booked")]

/-- A concrete store holding the two sample reservations under ids "7"
and "8". -/
def sampleService : Service where
  read := fun reservation_id =>
    if reservation_id == "7" then some finishedReservation
    else if reservation_id == "8" then some bookedReservation
    else none

/-- The sample payload with a supplied empty-string status. -/
def emptyStatusData : JSObject := sampleData ++ [("status", .vStr "")]

/-- The sample payload with a supplied "seated" status. -/
def seatedStatusData : JSObject := sampleData ++ [("status", .vStr "seated")]

/-- The sample payload with an extra key outside the allow-list. -/
def extraKeyData : JSObject := sampleData ++ [("favorite_color", .vStr "red")]

/-- A payload in which all three inspected fields are malformed: `people`
is a string, the date does not parse, the time misses the pattern. -/
def badData : JSObject :=
  [("first_name", .vStr "Ann"), ("last_name", .vStr "Lee"),
   ("mobile_number", .vStr "555-1234"), ("reservation_date", .vStr "not-a-date"),
   ("reservation_time", .vStr "9:30"), ("people", .vStr "two")]

/-- A `Date` runtime in which nothing parses. -/
def badEnv : DateEnv where
  parse := fun _ => none
  getDay := fun _ => 0
  now := 0

/-- A status-route payload carrying, besides a valid status, an arbitrary
unvalidated field. -/
def garbageStatusData : JSObject :=
  [("status", .vStr "cancelled"), ("reservation_date", .vStr "not-a-date")]

theorem char_toNat_inj {c d : Char} (h : c.toNat = d.toNat) : c = d :=
  Char.eq_of_val_eq (UInt32.ext h)

theorem char_beq_eq_decide (c d : Char) : (c == d) = decide (c.toNat = d.toNat) := by
  by_cases h : c.toNat = d.toNat
  · simp [char_toNat_inj h, h]
  · simp only [h, decide_False]
    rw [beq_eq_false_iff_ne]
    intro he
    exact h (congrArg Char.toNat he)

theorem reservationTimeAccepted_eq_spec (t : String) :
    reservationTimeAccepted t = specTimeAccepted t := by
  rcases ht : t.data with _ | ⟨h1, _ | ⟨h2, _ | ⟨c, _ | ⟨m1, _ | ⟨m2, _ | ⟨x, rest⟩⟩⟩⟩⟩⟩ <;>
    simp only [reservationTimeAccepted, reservationTimeIsValid, reservationTimeNotAllowed,
      specTimeAccepted, ht, Bool.false_and]
  rw [Bool.eq_iff_iff]
  simp only [removeFirstColon, jsNumberOfDigits, char_beq_eq_decide, inRange, List.take,
    List.all_cons, List.all_nil, Bool.and_true, Bool.and_eq_true, Bool.or_eq_true,
    Bool.not_eq_true', decide_eq_true_eq,
    show ('0' : Char).toNat = 48 from rfl, show ('1' : Char).toNat = 49 from rfl,
    show ('2' : Char).toNat = 50 from rfl, show ('3' : Char).toNat = 51 from rfl,
    show ('5' : Char).toNat = 53 from rfl, show ('9' : Char).toNat = 57 from rfl,
    show (':' : Char).toNat = 58 from rfl]
  split_ifs <;>
    simp only [List.take, List.all_cons, List.all_nil, List.foldl, Bool.and_eq_true,
      Bool.or_eq_true, Bool.not_eq_true', Bool.or_eq_false_iff, decide_eq_true_eq,
      decide_eq_false_iff_not, not_lt, not_le, Bool.and_true, inRange,
      show ('0' : Char).toNat = 48 from rfl, show ('9' : Char).toNat = 57 from rfl] at * <;>
    omega

/-- C5: a `reservation_time` value passes the two time checks exactly when
it matches the two-digit HH:MM pattern with HH in 00..23 and MM in 00..59
and lies within the inclusive service window 10:30..21:30; in particular
"25:00", "10:60", "9:30", "10:29" and "21:31" are rejected while the
boundary values "10:30" and "21:30" are accepted. -/
theorem c5_time_acceptance :
    (∀ t, reservationTimeAccepted t = specTimeAccepted t)
    ∧ reservationTimeAccepted "10:30" = true
    ∧ reservationTimeAccepted "21:30" = true
    ∧ reservationTimeAccepted "25:00" = false
    ∧ reservationTimeAccepted "10:60" = false
    ∧ reservationTimeAccepted "9:30" = false
    ∧ reservationTimeAccepted "10:29" = false
    ∧ reservationTimeAccepted "21:31" = false :=
  ⟨reservationTimeAccepted_eq_spec, by decide, by decide, by decide, by decide,
    by decide, by decide, by decide⟩

/-- C6: when "date time PST" parses to a timestamp, the reservation is
flagged as past exactly when that timestamp is strictly before `Date.now()`;
a timestamp equal to now, or any later one (such as one second in the
future), is not flagged. -/
theorem c6_past_check (env : DateEnv) (d t : Option JSValue) (ts : Int)
    (hp : env.parse (jsToString d ++ " " ++ jsToString t ++ " PST") = some ts) :
    (reservationNotInTheFuture env d t = true ↔ ts < env.now)
    ∧ (ts = env.now → reservationNotInTheFuture env d t = false)
    ∧ (env.now < ts → reservationNotInTheFuture env d t = false) := by
  unfold reservationNotInTheFuture
  rw [hp]
  refine ⟨by simp, ?_, ?_⟩ <;> intro h <;> simp <;> omega

/-- C6 witness: with a runtime in which the sample timestamp parses to the
exact current time, the reservation is not flagged as past. -/
theorem c6_past_check_witness :
    reservationNotInTheFuture
      { parse := fun _ => some 0, getDay := fun _ => 0, now := 0 }
      (some (.vStr "2030-01-09")) (some (.vStr "12:00")) = false :=
  (c6_past_check { parse := fun _ => some 0, getDay := fun _ => 0, now := 0 }
    (some (.vStr "2030-01-09")) (some (.vStr "12:00")) 0 rfl).2.1 rfl

theorem Outcome.seq_isOk {α : Type} (a : Outcome Unit) (k : Outcome α) :
    (Outcome.seq a k).isOk = (a.isOk && k.isOk) := by
  cases a <;> simp [Outcome.seq, Outcome.isOk]

theorem Outcome.seq_eq_ok {α : Type} (a : Outcome Unit) (k : Outcome α) (x : α) :
    Outcome.seq a k = .ok x ↔ a = .ok () ∧ k = .ok x := by
  cases a <;> simp [Outcome.seq]

theorem getField_spread (a b : JSObject) (k : String) :
    getField (spread a b) k = (getField b k).or (getField a k) := by
  unfold getField spread
  rw [List.find?_append]
  cases b.find? (fun p => p.1 == k) <;> simp [Option.or]

/-- C9: every id-addressed route resolves the id first; a miss yields a 404
naming the id on read, update, delete and status-update alike, and a hit
makes the read handler return exactly the resolved record. -/
theorem c9_existence_guard (env : DateEnv) (service : Service) (id : String)
    (data : JSObject) :
    (service.read id = none →
      readPipeline service id
          = .fail 404 ("Reservation ID " ++ id ++ " does not exist.")
        ∧ updatePipeline env service id data
          = .fail 404 ("Reservation ID " ++ id ++ " does not exist.")
        ∧ deletePipeline service id
          = .fail 404 ("Reservation ID " ++ id ++ " does not exist.")
        ∧ updateStatusPipeline service id data
          = .fail 404 ("Reservation ID " ++ id ++ " does not exist."))
    ∧ (∀ r, service.read id = some r → readPipeline service id = .ok r) := by
  constructor
  · intro h
    refine ⟨?_, ?_, ?_, ?_⟩ <;>
      simp [readPipeline, updatePipeline, deletePipeline, updateStatusPipeline,
        reservationExists, h, Outcome.bind]
  · intro r h
    simp [readPipeline, reservationExists, h, Outcome.bind]

/-- C9 witness: id "9" is absent from the sample store and is reported as
not found by the read route; id "7" resolves and the read route returns
exactly the stored record. -/
theorem c9_existence_guard_witness :
    readPipeline sampleService "9"
        = .fail 404 ("Reservation ID " ++ "9" ++ " does not exist.")
    ∧ readPipeline sampleService "7" = .ok finishedReservation :=
  ⟨((c9_existence_guard sampleEnv sampleService "9" sampleData).1 (by decide)).1,
    (c9_existence_guard sampleEnv sampleService "7" sampleData).2
      finishedReservation (by decide)⟩

/-- C1 counterexample: the sample store's reservation "7" is finished, yet
the full-record update route accepts a valid payload for it: the `update`
export carries no `statusIsNotFinished` guard. -/
theorem c1_finished_immutable_counterexample :
    sampleService.read "7" = some finishedReservation
    ∧ getField finishedReservation "status" = some (JSValue.vStr "finished")
    ∧ (updatePipeline sampleEnv sampleService "7" sampleData).isOk = true :=
  ⟨by decide, by decide, by decide⟩

/-- C1 (amended): a finished reservation rejects every status-only update
via the updateStatus route, but full-record updates via the update route
are not blocked by any finished-status guard. -/
theorem c1_finished_blocks_status_route (service : Service) (id : String)
    (data r : JSObject) (hr : service.read id = some r)
    (hst : getField r "status" = some (JSValue.vStr "finished")) :
    updateStatusPipeline service id data
      = .fail 400 "A finished reservation cannot be updated." := by
  simp [updateStatusPipeline, reservationExists, hr, Outcome.bind,
    statusIsNotFinished, hst, Outcome.seq, jsToString]

/-- C1 witness: the finished sample reservation rejects a status-only
update. -/
theorem c1_finished_blocks_status_route_witness :
    updateStatusPipeline sampleService "7" sampleData
      = .fail 400 "A finished reservation cannot be updated." :=
  c1_finished_blocks_status_route sampleService "7" sampleData
    finishedReservation (by decide) (by decide)

/-- C3 counterexample: a creation payload supplying `status: ""` supplies a
status different from "booked", yet is accepted (a falsy status passes
`statusIsBooked`); the stored record still has status "booked". -/
theorem c3_create_status_counterexample :
    getField emptyStatusData "status" = some (JSValue.vStr "")
    ∧ some (JSValue.vStr "") ≠ some (JSValue.vStr "booked")
    ∧ (createPipeline sampleEnv emptyStatusData).isOk = true
    ∧ createPipeline sampleEnv emptyStatusData
        = .ok (spread emptyStatusData [("status", .vStr "booked")])
    ∧ getField (spread emptyStatusData [("status", .vStr "booked")]) "status"
        = some (JSValue.vStr "booked") :=
  ⟨by decide, by decide, by decide, by decide, by decide⟩

/-- C3 (amended): on creation a supplied truthy status other than "booked"
is never accepted (a falsy supplied status, such as the empty string, is
treated as omitted), and every record the create handler passes to the
store has status "booked" regardless of the client-supplied value. -/
theorem c3_create_status_forced (env : DateEnv) (data : JSObject) :
    (truthy (getField data "status") = true
      → getField data "status" ≠ some (JSValue.vStr "booked")
      → (createPipeline env data).isOk = false)
    ∧ (∀ rec, createPipeline env data = .ok rec
        → getField rec "status" = some (JSValue.vStr "booked")) := by
  constructor
  · intro htr hne
    have hsb : statusIsBooked data
        = .fail 400 ("The reservation status is " ++ jsToString (getField data "status") ++ ".") := by
      simp only [statusIsBooked, htr, Bool.not_true, Bool.false_eq_true, if_false]
      rw [if_neg]
      intro hbeq
      exact hne (eq_of_beq hbeq)
    unfold createPipeline
    rw [hsb]
    simp only [Outcome.seq_isOk]
    simp [Outcome.isOk]
  · intro rec hok
    unfold createPipeline at hok
    rw [Outcome.seq_eq_ok] at hok
    rw [Outcome.seq_eq_ok] at hok
    rw [Outcome.seq_eq_ok] at hok
    rw [Outcome.seq_eq_ok] at hok
    obtain ⟨-, -, -, -, hrec⟩ := hok
    cases hrec
    rfl

/-- C3 witness: a supplied "seated" status is rejected on creation, and the
record stored for the plain sample payload has status "booked". -/
theorem c3_create_status_forced_witness :
    (createPipeline sampleEnv seatedStatusData).isOk = false
    ∧ getField (spread sampleData [("status", .vStr "booked")]) "status"
        = some (JSValue.vStr "booked") :=
  ⟨(c3_create_status_forced sampleEnv seatedStatusData).1 (by decide) (by decide),
    (c3_create_status_forced sampleEnv sampleData).2
      (spread sampleData [("status", .vStr "booked")]) (by decide)⟩

theorem hasOnlyValidProperties_ok (data : JSObject)
    (hk : ∀ k ∈ data.map (fun p => p.1), k ∈ VALID_PROPERTIES) :
    hasOnlyValidProperties data = .ok () := by
  have hfil : (data.map (fun p => p.1)).filter
      (fun f => !(VALID_PROPERTIES.contains f)) = [] := by
    rw [List.filter_eq_nil_iff]
    intro a ha
    simp [List.elem_iff, hk a ha]
  simp only [hasOnlyValidProperties, hfil]
  rfl

theorem hasOnlyValidProperties_fail (data : JSObject)
    (hne : (data.map (fun p => p.1)).filter
      (fun f => !(VALID_PROPERTIES.contains f)) ≠ []) :
    hasOnlyValidProperties data
      = .fail 400 ("Invalid field(s): " ++ String.intercalate ", "
          ((data.map (fun p => p.1)).filter (fun f => !(VALID_PROPERTIES.contains f)))) := by
  have hfe : ((data.map (fun p => p.1)).filter
      (fun f => !(VALID_PROPERTIES.contains f))).isEmpty = false := by
    cases hi : (data.map (fun p => p.1)).filter (fun f => !(VALID_PROPERTIES.contains f)) with
    | nil => exact absurd hi hne
    | cons a l => rfl
  simp only [hasOnlyValidProperties, hfe, Bool.not_false, if_true]

theorem hasRequiredProperties_fail (data : JSObject)
    (hne : REQUIRED_PROPERTIES.filter (fun k => !(truthy (getField data k))) ≠ []) :
    hasRequiredProperties data
      = .fail 400 ("Missing field(s): " ++ String.intercalate ", "
          (REQUIRED_PROPERTIES.filter (fun k => !(truthy (getField data k))))) := by
  have hfe : (REQUIRED_PROPERTIES.filter (fun k => !(truthy (getField data k)))).isEmpty
      = false := by
    cases hi : REQUIRED_PROPERTIES.filter (fun k => !(truthy (getField data k))) with
    | nil => exact absurd hi hne
    | cons a l => rfl
  simp only [hasRequiredProperties, hfe, Bool.not_false, if_true]

/-- C7: a payload whose keys all lie in the allow-list is never rejected by
the allow-list check; a payload with a key outside it is rejected with one
message naming exactly the offending keys, both by the check itself, by the
create route, and by the update route once the id resolves. -/
theorem c7_allow_list (env : DateEnv) (service : Service) (id : String)
    (data r : JSObject) :
    ((∀ k ∈ data.map (fun p => p.1), k ∈ VALID_PROPERTIES)
      → hasOnlyValidProperties data = .ok ())
    ∧ ((data.map (fun p => p.1)).filter (fun f => !(VALID_PROPERTIES.contains f)) ≠ []
      → hasOnlyValidProperties data
          = .fail 400 ("Invalid field(s): " ++ String.intercalate ", "
              ((data.map (fun p => p.1)).filter (fun f => !(VALID_PROPERTIES.contains f))))
        ∧ createPipeline env data
          = .fail 400 ("Invalid field(s): " ++ String.intercalate ", "
              ((data.map (fun p => p.1)).filter (fun f => !(VALID_PROPERTIES.contains f))))
        ∧ (service.read id = some r
          → updatePipeline env service id data
            = .fail 400 ("Invalid field(s): " ++ String.intercalate ", "
                ((data.map (fun p => p.1)).filter (fun f => !(VALID_PROPERTIES.contains f)))))) := by
  refine ⟨hasOnlyValidProperties_ok data, fun hne => ⟨hasOnlyValidProperties_fail data hne, ?_, ?_⟩⟩
  · unfold createPipeline
    rw [hasOnlyValidProperties_fail data hne]
    rfl
  · intro hr
    unfold updatePipeline reservationExists
    rw [hr]
    show Outcome.seq (hasOnlyValidProperties data) _ = _
    rw [hasOnlyValidProperties_fail data hne]
    rfl

/-- C7 witness: the sample payload passes the allow-list check; adding the
key "favorite_color" makes the check, the create route and the update route
all reject naming exactly that key. -/
theorem c7_allow_list_witness :
    hasOnlyValidProperties sampleData = .ok ()
    ∧ hasOnlyValidProperties extraKeyData
        = .fail 400 "Invalid field(s): favorite_color"
    ∧ createPipeline sampleEnv extraKeyData
        = .fail 400 "Invalid field(s): favorite_color"
    ∧ updatePipeline sampleEnv sampleService "8" extraKeyData
        = .fail 400 "Invalid field(s): favorite_color" :=
  ⟨(c7_allow_list sampleEnv sampleService "8" sampleData bookedReservation).1 (by decide),
    ((c7_allow_list sampleEnv sampleService "8" extraKeyData bookedReservation).2 (by decide)).1,
    ((c7_allow_list sampleEnv sampleService "8" extraKeyData bookedReservation).2 (by decide)).2.1,
    ((c7_allow_list sampleEnv sampleService "8" extraKeyData bookedReservation).2 (by decide)).2.2
      (by decide)⟩

/-- C8 (spec-modelled `hasProperties`): a creation payload missing one of
the six required fields, or supplying it empty, is never accepted, and when
its keys pass the allow-list the rejection message lists exactly the
missing fields. -/
theorem c8_required_fields (env : DateEnv) (data : JSObject)
    (hm : REQUIRED_PROPERTIES.filter (fun k => !(truthy (getField data k))) ≠ []) :
    (createPipeline env data).isOk = false
    ∧ ((∀ k ∈ data.map (fun p => p.1), k ∈ VALID_PROPERTIES)
        → createPipeline env data
          = .fail 400 ("Missing field(s): " ++ String.intercalate ", "
              (REQUIRED_PROPERTIES.filter (fun k => !(truthy (getField data k)))))) := by
  constructor
  · unfold createPipeline
    rw [hasRequiredProperties_fail data hm]
    simp only [Outcome.seq_isOk]
    simp [Outcome.isOk]
  · intro hk
    unfold createPipeline
    rw [hasOnlyValidProperties_ok data hk, hasRequiredProperties_fail data hm]
    rfl

/-- C8 witness: the empty payload is rejected with a message listing all
six required fields. -/
theorem c8_required_fields_witness :
    (createPipeline sampleEnv ([] : JSObject)).isOk = false
    ∧ createPipeline sampleEnv ([] : JSObject)
      = .fail 400 ("Missing field(s): first_name, last_name, mobile_number, reservation_date, reservation_time, people") :=
  ⟨(c8_required_fields sampleEnv ([] : JSObject) (by decide)).1,
    (c8_required_fields sampleEnv ([] : JSObject) (by decide)).2 (by decide)⟩

theorem statusIsNotFinished_of_finished (r : JSObject)
    (hst : getField r "status" = some (JSValue.vStr "finished")) :
    statusIsNotFinished r = .fail 400 "A finished reservation cannot be updated." := by
  simp [statusIsNotFinished, hst, jsToString]

theorem statusIsNotFinished_ok (r : JSObject)
    (hne : getField r "status" ≠ some (JSValue.vStr "finished")) :
    statusIsNotFinished r = .ok () := by
  simp only [statusIsNotFinished]
  rw [if_pos]
  simp only [bne_iff_ne, ne_eq]
  exact hne

theorem hasValidStatusRequest_ok (data : JSObject)
    (h : getField data "status" = some (JSValue.vStr "booked")
      ∨ getField data "status" = some (JSValue.vStr "seated")
      ∨ getField data "status" = some (JSValue.vStr "finished")
      ∨ getField data "status" = some (JSValue.vStr "cancelled")) :
    hasValidStatusRequest data = .ok () := by
  simp only [hasValidStatusRequest]
  rw [if_pos]
  simp only [Bool.or_eq_true, beq_iff_eq]
  tauto

theorem hasValidStatusRequest_fail (data : JSObject)
    (h : ¬(getField data "status" = some (JSValue.vStr "booked")
      ∨ getField data "status" = some (JSValue.vStr "seated")
      ∨ getField data "status" = some (JSValue.vStr "finished")
      ∨ getField data "status" = some (JSValue.vStr "cancelled"))) :
    hasValidStatusRequest data
      = .fail 400 ("The reservation status " ++ jsToString (getField data "status") ++ " is invalid.") := by
  simp only [hasValidStatusRequest]
  rw [if_neg]
  simp only [Bool.or_eq_true, beq_iff_eq]
  tauto

theorem updateStatusPipeline_resolved (service : Service) (id : String)
    (data r : JSObject) (hr : service.read id = some r) :
    updateStatusPipeline service id data
      = Outcome.seq (statusIsNotFinished r)
          (Outcome.seq (hasValidStatusRequest data) (.ok (spread r data))) := by
  unfold updateStatusPipeline reservationExists
  rw [hr]
  rfl

/-- C2: on an existing reservation, a status-update request is accepted
exactly when the current status is not "finished" and the requested status
is one of booked, seated, finished, cancelled; a finished reservation
rejects every request, whatever the target, with the finished message, and
a non-finished reservation rejects an invalid requested value with a
message naming it. -/
theorem c2_status_update_contract (service : Service) (id : String)
    (data r : JSObject) (hr : service.read id = some r) :
    ((updateStatusPipeline service id data).isOk = true
      ↔ (getField r "status" ≠ some (JSValue.vStr "finished")
          ∧ (getField data "status" = some (JSValue.vStr "booked")
            ∨ getField data "status" = some (JSValue.vStr "seated")
            ∨ getField data "status" = some (JSValue.vStr "finished")
            ∨ getField data "status" = some (JSValue.vStr "cancelled"))))
    ∧ (getField r "status" = some (JSValue.vStr "finished")
        → updateStatusPipeline service id data
          = .fail 400 "A finished reservation cannot be updated.")
    ∧ (getField r "status" ≠ some (JSValue.vStr "finished")
        → ¬(getField data "status" = some (JSValue.vStr "booked")
            ∨ getField data "status" = some (JSValue.vStr "seated")
            ∨ getField data "status" = some (JSValue.vStr "finished")
            ∨ getField data "status" = some (JSValue.vStr "cancelled"))
        → updateStatusPipeline service id data
          = .fail 400 ("The reservation status " ++ jsToString (getField data "status") ++ " is invalid.")) := by
  rw [updateStatusPipeline_resolved service id data r hr]
  refine ⟨⟨?_, ?_⟩, ?_, ?_⟩
  · intro hok
    by_cases hf : getField r "status" = some (JSValue.vStr "finished")
    · rw [statusIsNotFinished_of_finished r hf] at hok
      simp [Outcome.seq, Outcome.isOk] at hok
    · by_cases hv : getField data "status" = some (JSValue.vStr "booked")
        ∨ getField data "status" = some (JSValue.vStr "seated")
        ∨ getField data "status" = some (JSValue.vStr "finished")
        ∨ getField data "status" = some (JSValue.vStr "cancelled")
      · exact ⟨hf, hv⟩
      · rw [statusIsNotFinished_ok r hf, hasValidStatusRequest_fail data hv] at hok
        simp [Outcome.seq, Outcome.isOk] at hok
  · rintro ⟨hf, hv⟩
    rw [statusIsNotFinished_ok r hf, hasValidStatusRequest_ok data hv]
    rfl
  · intro hf
    rw [statusIsNotFinished_of_finished r hf]
    rfl
  · intro hf hv
    rw [statusIsNotFinished_ok r hf, hasValidStatusRequest_fail data hv]
    rfl

/-- C2 witness: on the booked sample reservation a "cancelled" request is
accepted and an absent (undefined) status is rejected naming it; on the
finished sample reservation even "cancelled" is rejected with the finished
message. -/
theorem c2_status_update_contract_witness :
    (updateStatusPipeline sampleService "8" garbageStatusData).isOk = true
    ∧ updateStatusPipeline sampleService "7" garbageStatusData
        = .fail 400 "A finished reservation cannot be updated."
    ∧ updateStatusPipeline sampleService "8" sampleData
        = .fail 400 "The reservation status undefined is invalid." :=
  ⟨(c2_status_update_contract sampleService "8" garbageStatusData bookedReservation
      (by decide)).1.mpr (by decide),
    (c2_status_update_contract sampleService "7" garbageStatusData finishedReservation
      (by decide)).2.1 (by decide),
    (c2_status_update_contract sampleService "8" sampleData bookedReservation
      (by decide)).2.2 (by decide) (by decide)⟩

/-- C10: an accepted status-update on an existing non-finished reservation
passes to the store exactly the stored record overwritten by every field of
the payload, absent fields unchanged; no shape or business-rule validation
runs on the other fields, so an arbitrary payload field (here an invalid
reservation_date) is persisted as supplied. -/
theorem c10_status_route_merge (service : Service) (id : String)
    (data r : JSObject) (hr : service.read id = some r)
    (hnf : getField r "status" ≠ some (JSValue.vStr "finished"))
    (hv : getField data "status" = some (JSValue.vStr "booked")
      ∨ getField data "status" = some (JSValue.vStr "seated")
      ∨ getField data "status" = some (JSValue.vStr "finished")
      ∨ getField data "status" = some (JSValue.vStr "cancelled")) :
    updateStatusPipeline service id data = .ok (spread r data)
    ∧ ∀ k, getField (spread r data) k = (getField data k).or (getField r k) := by
  refine ⟨?_, fun k => getField_spread r data k⟩
  rw [updateStatusPipeline_resolved service id data r hr,
    statusIsNotFinished_ok r hnf, hasValidStatusRequest_ok data hv]
  rfl

/-- C10 witness: cancelling the booked sample reservation with a payload
that also carries an unvalidated bad date persists the merged record, the
bad date included, the untouched fields kept. -/
theorem c10_status_route_merge_witness :
    updateStatusPipeline sampleService "8" garbageStatusData
      = .ok (spread bookedReservation garbageStatusData)
    ∧ getField (spread bookedReservation garbageStatusData) "reservation_date"
      = some (JSValue.vStr "not-a-date")
    ∧ getField (spread bookedReservation garbageStatusData) "first_name"
      = some (JSValue.vStr "Cal") :=
  ⟨(c10_status_route_merge sampleService "8" garbageStatusData bookedReservation
      (by decide) (by decide) (by decide)).1, by decide, by decide⟩

/-- C4: when `reservation_time` is supplied as a string, a payload in which
any of the three inspected fields is malformed is rejected with the one
combined "Invalid input(s)" message listing every malformed field, and no
business-rule error is produced; when all three are well-formed, the three
business rules decide the outcome in the fixed order Tuesday, then past,
then service hours, the first violated rule alone naming the error. -/
theorem c4_input_validation_order (env : DateEnv) (data : JSObject) (t : String)
    (ht : getField data "reservation_time" = some (JSValue.vStr t)) :
    (¬(isNumberValue (getField data "people") = true
        ∧ reservationDateIsValid env (getField data "reservation_date") = true
        ∧ reservationTimeIsValid t = true)
      → hasValidInputs env data
        = .fail 400 ("Invalid input(s):"
            ++ (if isNumberValue (getField data "people") then "" else " people")
            ++ (if reservationDateIsValid env (getField data "reservation_date") then ""
                else " reservation_date")
            ++ (if reservationTimeIsValid t then "" else " reservation_time")))
    ∧ (isNumberValue (getField data "people") = true
      → reservationDateIsValid env (getField data "reservation_date") = true
      → reservationTimeIsValid t = true
      → ((reservationDateIsTuesday env (getField data "reservation_date") = true
          → hasValidInputs env data = .fail 400 "The restaurant is closed on Tuesdays.")
        ∧ (reservationDateIsTuesday env (getField data "reservation_date") = false
          → reservationNotInTheFuture env (getField data "reservation_date")
              (getField data "reservation_time") = true
          → hasValidInputs env data = .fail 400 "Please enter future reservation date.")
        ∧ (reservationDateIsTuesday env (getField data "reservation_date") = false
          → reservationNotInTheFuture env (getField data "reservation_date")
              (getField data "reservation_time") = false
          → reservationTimeNotAllowed t = true
          → hasValidInputs env data = .fail 400 "Please enter a time between 10:30 to 21:30.")
        ∧ (reservationDateIsTuesday env (getField data "reservation_date") = false
          → reservationNotInTheFuture env (getField data "reservation_date")
              (getField data "reservation_time") = false
          → reservationTimeNotAllowed t = false
          → hasValidInputs env data = .ok ()))) := by
  constructor
  · intro hbad
    cases hP : isNumberValue (getField data "people") <;>
      cases hD : reservationDateIsValid env (getField data "reservation_date") <;>
        cases hT : reservationTimeIsValid t <;>
          first
          | (simp [hasValidInputs, ht, hP, hD, hT]; done)
          | exact absurd ⟨hP, hD, hT⟩ hbad
  · intro h1 h2 h3
    refine ⟨fun htu => ?_, fun htu hfu => ?_, fun htu hfu hna => ?_,
      fun htu hfu hna => ?_⟩
    · simp [hasValidInputs, ht, h1, h2, h3, htu]
    · rw [ht] at hfu
      simp [hasValidInputs, ht, h1, h2, h3, htu, hfu]
    · rw [ht] at hfu
      simp [hasValidInputs, ht, h1, h2, h3, htu, hfu, hna]
    · rw [ht] at hfu
      simp [hasValidInputs, ht, h1, h2, h3, htu, hfu, hna]

/-- C4 witness: with nothing parsing, a payload whose three inspected
fields are all malformed is rejected naming all three in one message, and
the well-formed sample payload passes the whole input check. -/
theorem c4_input_validation_order_witness :
    hasValidInputs badEnv badData
      = .fail 400 "Invalid input(s): people reservation_date reservation_time"
    ∧ hasValidInputs sampleEnv sampleData = .ok () :=
  ⟨(c4_input_validation_order badEnv badData "9:30" (by decide)).1 (by decide),
    ((c4_input_validation_order sampleEnv sampleData "12:00" (by decide)).2
      (by decide) (by decide) (by decide)).2.2.2 (by decide) (by decide) (by decide)⟩
